import Mathlib

/-!
Verification of `src/xiprd.c`, a RAM-backed block driver.

Shallow embedding. The ramdisk buffer `dev->ramdisk` is modelled as a total
function `Nat → Nat` from byte offsets to byte values: the C code performs
unchecked pointer arithmetic (`dev->ramdisk + offset`) with no bounds test,
so raw memory beyond the buffer is addressable exactly as in the source.
A `bio` is modelled by its sector, its data direction and its segment list;
each segment is the byte contents of its caller page (`bv_len` is the list
length). `xiprd_make_request` returns the new ramdisk contents, the
resulting caller buffers (for a READ, what was copied out of the store) and
the completion status passed to `bio_endio` / returned to the caller.
-/

/-- `KERNEL_SHIFT` from xiprd.c line 26: kernel sectors are 512 bytes. -/
def KERNEL_SHIFT : Nat := 9

/-- `SECTOR_SHIFT` from xiprd.c line 24. -/
def SECTOR_SHIFT : Nat := 9

/-- Data direction of a bio (`bio_data_dir(bi)`). -/
inductive Dir where
  | Read : Dir
  | Write : Dir
deriving DecidableEq

/-- A `struct bio`: starting kernel sector (`bi_sector`), direction, and the
ordered segment list (`bio_for_each_segment`); each segment is the byte
contents of its caller buffer, of length `bv_len`. -/
structure Bio where
  bi_sector : Nat
  dir : Dir
  segments : List (List Nat)

/-- `memcpy(dest, buf, len)` with `dest = ramdisk + offset`: write the bytes
of `data` into the store at `offset`. -/
def storeWrite (store : Nat → Nat) (offset : Nat) (data : List Nat) : Nat → Nat :=
  fun a => if offset ≤ a ∧ a < offset + data.length then data.getD (a - offset) 0 else store a

/-- `memcpy(buf, dest, len)` with `dest = ramdisk + offset`: read `len` bytes
out of the store starting at `offset`. -/
def storeRead (store : Nat → Nat) (offset len : Nat) : List Nat :=
  (List.range len).map fun i => store (offset + i)

/-- The `bio_for_each_segment` loop of `xiprd_make_request` (lines 81-93):
for each segment copy between the caller buffer and the store, then advance
`offset += bvec->bv_len`. Returns the final store and the caller buffers
(unchanged for WRITE, filled from the store for READ). -/
def processSegments (store : Nat → Nat) (offset : Nat) (d : Dir)
    (segs : List (List Nat)) : (Nat → Nat) × List (List Nat) :=
  match segs with
  | [] => (store, [])
  | seg :: rest =>
    match d with
    | Dir.Write =>
      let store1 := storeWrite store offset seg
      let r := processSegments store1 (offset + seg.length) Dir.Write rest
      (r.1, seg :: r.2)
    | Dir.Read =>
      let buf := storeRead store offset seg.length
      let r := processSegments store (offset + seg.length) Dir.Read rest
      (r.1, buf :: r.2)

/-- Line 78: `offset = bi->bi_sector << KERNEL_SHIFT` — the byte offset at
which the first segment copy begins. -/
def bio_byte_offset (bi : Bio) : Nat := bi.bi_sector <<< KERNEL_SHIFT

/-- `xiprd_make_request` (lines 67-98): compute the byte offset from the
kernel sector, run the segment loop under the lock, then complete with
`bio_endio(bi, 0)` and return 0. There is no bounds check of any kind.
Result: (new store, caller buffers, completion status). -/
def xiprd_make_request (store : Nat → Nat) (bi : Bio) :
    (Nat → Nat) × List (List Nat) × Int :=
  let r := processSegments store (bio_byte_offset bi) bi.dir bi.segments
  (r.1, r.2, 0)

/-- Conversion of a C `int` to `u64` (two's complement, modulo 2^64). -/
def u64_of_int (i : Int) : Nat := (i % (2 ^ 64 : Int)).toNat

/-- Line 120: `dev->size = ((u64)num_sectors * (u64)sector_size)` — the
device capacity in bytes, as a u64. -/
def dev_size (sector_size : Int) (num_sectors : Nat) : Nat :=
  ((num_sectors % 2 ^ 64) * u64_of_int sector_size) % 2 ^ 64

/-- Total length in bytes of a bio's segment list. -/
def totalLen (segs : List (List Nat)) : Nat := (segs.map List.length).sum

/-- The all-zero initial store, used for concrete instances. -/
def store0 : Nat → Nat := fun _ => 0

/- ------------------------------------------------------------------ -/
/- Helper lemmas about the segment loop                                -/
/- ------------------------------------------------------------------ -/

lemma storeWrite_get_inside (store : Nat → Nat) (offset : Nat) (data : List Nat)
    (i : Nat) (h : i < data.length) :
    storeWrite store offset data (offset + i) = data.getD i 0 := by
  unfold storeWrite
  have h1 : offset ≤ offset + i ∧ offset + i < offset + data.length := by omega
  simp only [h1, if_pos, and_self, Nat.add_sub_cancel_left]

lemma storeWrite_get_outside (store : Nat → Nat) (offset : Nat) (data : List Nat)
    (a : Nat) (h : a < offset ∨ offset + data.length ≤ a) :
    storeWrite store offset data a = store a := by
  unfold storeWrite
  have h1 : ¬(offset ≤ a ∧ a < offset + data.length) := by omega
  simp [h1]

lemma storeWrite_nil (store : Nat → Nat) (offset : Nat) :
    storeWrite store offset [] = store := by
  funext a
  exact storeWrite_get_outside store offset [] a (by rw [List.length_nil]; omega)

lemma storeRead_storeWrite (store : Nat → Nat) (offset : Nat) (data : List Nat) :
    storeRead (storeWrite store offset data) offset data.length = data := by
  unfold storeRead
  apply List.ext_getElem
  · simp
  · intro i h1 h2
    simp only [List.getElem_map, List.getElem_range]
    rw [storeWrite_get_inside store offset data i (by simpa using h1)]
    exact List.getD_eq_getElem data 0 (by simpa using h1)

/- ------------------------------------------------------------------ -/
/- C1: write-then-read round trip                                      -/
/- ------------------------------------------------------------------ -/

/-- Claim C1: for every sector-addressed offset and data with
`offset + len(data) <= capacity_bytes`, submitting a WRITE bio carrying
`data` at that offset and then a READ bio over the same byte range returns
exactly `data` in the caller buffer. -/
theorem write_read_roundtrip (sector_size : Int) (num_sectors : Nat)
    (s : Nat) (data buf0 : List Nat) (store : Nat → Nat)
    (hlen : buf0.length = data.length)
    (hcap : (s <<< KERNEL_SHIFT) + data.length ≤ dev_size sector_size num_sectors) :
    (xiprd_make_request
      ((xiprd_make_request store { bi_sector := s, dir := Dir.Write, segments := [data] }).1)
      { bi_sector := s, dir := Dir.Read, segments := [buf0] }).2.1 = [data] := by
  simp [xiprd_make_request, processSegments, bio_byte_offset, hlen, storeRead_storeWrite]

/-- Witness for C1 at `sector_size = 512`, `num_sectors = 2048`, sector 0,
a one-byte payload `[171]`. -/
theorem write_read_roundtrip_witness :
    (xiprd_make_request
      ((xiprd_make_request store0 { bi_sector := 0, dir := Dir.Write, segments := [[171]] }).1)
      { bi_sector := 0, dir := Dir.Read, segments := [[0]] }).2.1 = [[171]] :=
  write_read_roundtrip 512 2048 0 [171] [0] store0 rfl (by decide)

/- ------------------------------------------------------------------ -/
/- C9: frame property of the segment loop                              -/
/- ------------------------------------------------------------------ -/

lemma processSegments_read_store (store : Nat → Nat) (offset : Nat)
    (segs : List (List Nat)) :
    (processSegments store offset Dir.Read segs).1 = store := by
  induction segs generalizing offset with
  | nil => rfl
  | cons seg rest ih => simpa [processSegments] using ih (offset + seg.length)

lemma processSegments_write_frame (store : Nat → Nat) (offset : Nat)
    (segs : List (List Nat)) (a : Nat)
    (h : a < offset ∨ offset + totalLen segs ≤ a) :
    (processSegments store offset Dir.Write segs).1 a = store a := by
  induction segs generalizing store offset with
  | nil => rfl
  | cons seg rest ih =>
    have htl : totalLen (seg :: rest) = seg.length + totalLen rest := by
      simp [totalLen]
    rw [htl] at h
    simp only [processSegments]
    rw [ih (storeWrite store offset seg) (offset + seg.length) (by omega)]
    exact storeWrite_get_outside store offset seg a (by omega)

/-- Claim C9: a READ bio leaves every byte of the ramdisk unchanged; a WRITE
bio modifies only the bytes in `[offset, offset + totalLen)` where
`offset = bi_sector << KERNEL_SHIFT` — every byte outside that range keeps
its previous value. -/
theorem make_request_frame (store : Nat → Nat) (bi : Bio) :
    (bi.dir = Dir.Read → (xiprd_make_request store bi).1 = store) ∧
    (bi.dir = Dir.Write → ∀ a : Nat,
      (a < bio_byte_offset bi ∨ bio_byte_offset bi + totalLen bi.segments ≤ a) →
      (xiprd_make_request store bi).1 a = store a) := by
  constructor
  · intro hd
    unfold xiprd_make_request
    rw [hd]
    exact processSegments_read_store store (bio_byte_offset bi) bi.segments
  · intro hd a ha
    unfold xiprd_make_request
    rw [hd]
    exact processSegments_write_frame store (bio_byte_offset bi) bi.segments a ha

/-- Witness for C9: a concrete READ bio leaves the store intact, and a
concrete WRITE bio of one byte at sector 0 leaves byte 3 unchanged. -/
theorem make_request_frame_witness :
    (xiprd_make_request store0 { bi_sector := 0, dir := Dir.Read, segments := [[5]] }).1 = store0 ∧
    (xiprd_make_request store0 { bi_sector := 0, dir := Dir.Write, segments := [[5]] }).1 3 = store0 3 :=
  ⟨(make_request_frame store0 _).1 rfl,
   (make_request_frame store0 _).2 rfl 3 (Or.inr (by decide))⟩

/- ------------------------------------------------------------------ -/
/- C8: empty segment list and zero-length segments                     -/
/- ------------------------------------------------------------------ -/

lemma processSegments_skip_nil (pre : List (List Nat)) (store : Nat → Nat)
    (offset : Nat) (d : Dir) (rest : List (List Nat)) :
    processSegments store offset d (pre ++ [] :: rest) =
      ((processSegments store offset d (pre ++ rest)).1,
        (processSegments store offset d (pre ++ rest)).2.take pre.length ++
          [] :: (processSegments store offset d (pre ++ rest)).2.drop pre.length) := by
  induction pre generalizing store offset with
  | nil => cases d <;> simp [processSegments, storeWrite_nil, storeRead]
  | cons p pre ih => cases d <;> simp [processSegments, ih]

/-- Claim C8: a bio with an empty segment list completes with status 0 and
leaves the store untouched with no buffers filled; a zero-length segment at
any position in the segment list is skipped — the final store, the status
and the buffers of every other segment (before and after it) are exactly as
in the request without it, and its own buffer stays empty. -/
theorem empty_and_zero_segments (store : Nat → Nat) (s : Nat) (d : Dir)
    (pre rest : List (List Nat)) :
    xiprd_make_request store { bi_sector := s, dir := d, segments := [] } = (store, [], 0) ∧
    (xiprd_make_request store { bi_sector := s, dir := d, segments := pre ++ [] :: rest }).1 =
      (xiprd_make_request store { bi_sector := s, dir := d, segments := pre ++ rest }).1 ∧
    (xiprd_make_request store { bi_sector := s, dir := d, segments := pre ++ [] :: rest }).2.1 =
      (xiprd_make_request store
          { bi_sector := s, dir := d, segments := pre ++ rest }).2.1.take pre.length ++
        [] :: (xiprd_make_request store
          { bi_sector := s, dir := d, segments := pre ++ rest }).2.1.drop pre.length ∧
    (xiprd_make_request store { bi_sector := s, dir := d, segments := pre ++ [] :: rest }).2.2 =
      (xiprd_make_request store { bi_sector := s, dir := d, segments := pre ++ rest }).2.2 := by
  refine ⟨rfl, ?_, ?_, rfl⟩ <;>
    simp [xiprd_make_request, bio_byte_offset, processSegments_skip_nil]

/- ------------------------------------------------------------------ -/
/- C2: there is no bounds check                                        -/
/- ------------------------------------------------------------------ -/

/-- Counterexample to claim C2. Device `sector_size = 512`,
`num_sectors = 1`, so `capacity_bytes = dev_size 512 1 = 512`. The WRITE
bio at kernel sector 1 with a one-byte segment addresses byte 512, beyond
capacity. The claim says submit returns an `OutOfRange` error and the store
is byte-for-byte unchanged; the code instead completes with status 0 and
performs the copy (the byte at offset 512 — past the end of the buffer —
becomes 5). -/
theorem bounds_rejection_counterexample :
    bio_byte_offset { bi_sector := 1, dir := Dir.Write, segments := [[5]] } + 1 >
      dev_size 512 1 ∧
    (xiprd_make_request store0 { bi_sector := 1, dir := Dir.Write, segments := [[5]] }).2.2 = 0 ∧
    (xiprd_make_request store0 { bi_sector := 1, dir := Dir.Write, segments := [[5]] }).1 512 = 5 ∧
    store0 512 = 0 := by
  refine ⟨by decide, rfl, ?_, rfl⟩
  simp [xiprd_make_request, processSegments, bio_byte_offset, storeWrite, KERNEL_SHIFT]

/-- Claim C2 as amended: `xiprd_make_request` performs no bounds check.
Every request — in range or not — completes with status 0, and a WRITE's
bytes land at the computed offsets unconditionally, with no comparison
against the device capacity anywhere in the path. -/
theorem no_bounds_check :
    (∀ (store : Nat → Nat) (bi : Bio), (xiprd_make_request store bi).2.2 = 0) ∧
    (∀ (store : Nat → Nat) (s : Nat) (data : List Nat) (i : Nat), i < data.length →
      (xiprd_make_request store { bi_sector := s, dir := Dir.Write, segments := [data] }).1
        ((s <<< KERNEL_SHIFT) + i) = data.getD i 0) := by
  constructor
  · intro store bi; rfl
  · intro store s data i hi
    simp only [xiprd_make_request, processSegments, bio_byte_offset]
    exact storeWrite_get_inside store (s <<< KERNEL_SHIFT) data i hi

/-- Witness for the amended C2 at a concrete out-of-range input. -/
theorem no_bounds_check_witness :
    (xiprd_make_request store0 { bi_sector := 1, dir := Dir.Write, segments := [[7]] }).2.2 = 0 ∧
    (xiprd_make_request store0 { bi_sector := 1, dir := Dir.Write, segments := [[7]] }).1
      ((1 <<< KERNEL_SHIFT) + 0) = 7 :=
  ⟨no_bounds_check.1 store0 _, no_bounds_check.2 store0 1 [7] 0 (by decide)⟩

/- ------------------------------------------------------------------ -/
/- C4: the offset uses a fixed 512-byte kernel sector, not sector_size -/
/- ------------------------------------------------------------------ -/

/-- Counterexample to claim C4. With configured `sector_size = 1024` and a
bio at sector 1, the claim says the first copy begins at byte
`1 * 1024 = 1024`; the code computes `1 << KERNEL_SHIFT = 512`. -/
theorem offset_sector_size_counterexample :
    bio_byte_offset { bi_sector := 1, dir := Dir.Write, segments := [[0]] } ≠ 1 * 1024 := by
  decide

/-- Claim C4 as amended: the byte offset at which the first segment copy
begins is always `bi_sector * 512` (`bi_sector << KERNEL_SHIFT`, the
kernel's fixed 512-byte sector unit), independent of the device's
configured `sector_size`; in particular a one-byte WRITE at sector `s`
lands at byte `s * 512`. -/
theorem offset_uses_kernel_sector_unit :
    (∀ bi : Bio, bio_byte_offset bi = bi.bi_sector * 512) ∧
    (∀ (store : Nat → Nat) (s b : Nat),
      (xiprd_make_request store { bi_sector := s, dir := Dir.Write, segments := [[b]] }).1
        (s * 512) = b) := by
  have hoff : ∀ bi : Bio, bio_byte_offset bi = bi.bi_sector * 512 := by
    intro bi
    simp [bio_byte_offset, KERNEL_SHIFT, Nat.shiftLeft_eq]
  refine ⟨hoff, ?_⟩
  intro store s b
  simp only [xiprd_make_request, processSegments, hoff]
  simpa using storeWrite_get_inside store (s * 512) [b] 0 (by simp)

/- ------------------------------------------------------------------ -/
/- Geometry: xiprd_getgeo (lines 100-107)                              -/
/- ------------------------------------------------------------------ -/

/-- `struct hd_geometry` (linux/hdreg.h): `heads` and `sectors` are
`unsigned char` (8-bit) fields, `cylinders` is `unsigned short` (16-bit);
the model keeps the stored values reduced accordingly. -/
structure HdGeometry where
  heads : Nat
  sectors : Nat
  cylinders : Nat
deriving DecidableEq

/-- Line 159: `kernel_sectors = ((u64)num_sectors*sector_size) >> KERNEL_SHIFT`
— the capacity in 512-byte kernel sectors handed to `set_capacity`, which
`get_capacity(bdev->bd_disk)` later returns to `xiprd_getgeo`. -/
def kernel_sectors (sector_size : Int) (num_sectors : Nat) : Nat :=
  dev_size sector_size num_sectors >>> KERNEL_SHIFT

/-- `xiprd_getgeo` (lines 100-107): `heads = (u8)(1 << 6)`,
`sectors = (u8)(1 << 5)`, `cylinders = get_capacity(...) >> 11` truncated
through the 16-bit `cylinders` field; returns 0. Input is the disk capacity
in 512-byte kernel sectors, result is (geometry, status). -/
def xiprd_getgeo (capacity_sectors : Nat) : HdGeometry × Int :=
  ({ heads := (1 <<< 6) % 256,
     sectors := (1 <<< 5) % 256,
     cylinders := (capacity_sectors >>> 11) % 65536 }, 0)

/-- `heads * sectors_per_track * cylinders` as reported by `xiprd_getgeo`. -/
def geoProduct (capacity_sectors : Nat) : Nat :=
  (xiprd_getgeo capacity_sectors).1.heads * (xiprd_getgeo capacity_sectors).1.sectors *
    (xiprd_getgeo capacity_sectors).1.cylinders

/- ------------------------------------------------------------------ -/
/- C5: cylinders wrap through the 16-bit field                         -/
/- ------------------------------------------------------------------ -/

/-- Counterexample to claim C5. A 64 GiB device (`sector_size = 512`,
`num_sectors = 2^27`) has `total_sectors = capacity_bytes / 512 = 2^27`;
the claim says the geometry query returns exactly
`cylinders = total_sectors >> 11 = 65536`, but the 16-bit field wraps it
to 0. -/
theorem getgeo_exact_counterexample :
    (xiprd_getgeo (kernel_sectors 512 (2 ^ 27))).1.cylinders ≠
      (dev_size 512 (2 ^ 27) / 512) >>> 11 := by
  decide

/-- Claim C5 as amended: the geometry query always returns `heads = 64`,
`sectors_per_track = 32` and status 0, with
`cylinders = (total_sectors >> 11) mod 2^16` (the 16-bit field); whenever
`total_sectors < 2^27` (devices below 64 GiB) this equals
`total_sectors >> 11` exactly, so a 1 GiB device with `sector_size = 512`
yields `cylinders = 1024`. -/
theorem getgeo_cylinders (capacity_sectors : Nat) :
    xiprd_getgeo capacity_sectors =
      ({ heads := 64, sectors := 32,
         cylinders := (capacity_sectors >>> 11) % 65536 }, 0) ∧
    (capacity_sectors < 2 ^ 27 →
      (xiprd_getgeo capacity_sectors).1.cylinders = capacity_sectors >>> 11) := by
  constructor
  · rfl
  · intro h
    have h1 : capacity_sectors >>> 11 < 65536 := by
      rw [Nat.shiftRight_eq_div_pow]
      omega
    simp [xiprd_getgeo, Nat.mod_eq_of_lt h1]

/-- Witness for the amended C5: 1 GiB, `sector_size = 512`,
`total_sectors = 2097152`, `cylinders = 1024`. -/
theorem getgeo_cylinders_witness :
    (xiprd_getgeo 2097152).1.cylinders = 1024 :=
  ((getgeo_cylinders 2097152).2 (by decide)).trans (by decide)

/- ------------------------------------------------------------------ -/
/- C7: geometry consistency only below the 16-bit wrap                 -/
/- ------------------------------------------------------------------ -/

/-- Counterexample to claim C7. At the positive capacity
`capacity_bytes = 2^36` (64 GiB), `capacity_bytes / 512 = 2^27` but
`heads * sectors_per_track * cylinders = 0`: the product is `2^27` sectors
away from `capacity_bytes / 512`, far more than one cylinder-unit (2048
sectors). Monotonicity fails at the same point: the smaller capacity
`2^36 - 2^20` yields the strictly larger product `2048 * 65535`. -/
theorem geo_consistency_counterexample :
    (0 : Nat) < 2 ^ 36 ∧
    2 ^ 36 / 512 - geoProduct (2 ^ 36 / 512) > 2048 ∧
    (2 ^ 36 - 2 ^ 20 ≤ 2 ^ 36 ∧
      geoProduct ((2 ^ 36 - 2 ^ 20) / 512) > geoProduct (2 ^ 36 / 512)) := by
  refine ⟨by decide, by decide, by decide, by decide⟩

/-- Claim C7 as amended: for positive capacities whose 512-byte sector
count stays below `2^27` (devices below 64 GiB, where the 16-bit cylinders
field does not wrap), `heads * sectors_per_track * cylinders` is within one
cylinder-unit (2048 sectors) below `capacity_bytes / 512`, and the product
is monotonically non-decreasing in the capacity. -/
theorem geo_consistency_bounded (c1 c2 : Nat) (hpos : 0 < c1)
    (hb1 : c1 / 512 < 2 ^ 27) (hb2 : c2 / 512 < 2 ^ 27) :
    geoProduct (c1 / 512) ≤ c1 / 512 ∧
    c1 / 512 - geoProduct (c1 / 512) < 2048 ∧
    (c1 ≤ c2 → geoProduct (c1 / 512) ≤ geoProduct (c2 / 512)) := by
  have hred : ∀ c : Nat, c / 512 < 2 ^ 27 →
      geoProduct (c / 512) = 2048 * (c / 512 / 2048) := by
    intro c hc
    have hh : (1 <<< 6 : Nat) % 256 = 64 := by decide
    have hs : (1 <<< 5 : Nat) % 256 = 32 := by decide
    simp only [geoProduct, xiprd_getgeo, hh, hs, Nat.shiftRight_eq_div_pow]
    norm_num
    omega
  rw [hred c1 hb1]
  refine ⟨by omega, by omega, ?_⟩
  intro h12
  rw [hred c2 hb2]
  have : c1 / 512 ≤ c2 / 512 := Nat.div_le_div_right h12
  omega

/-- Witness for the amended C7 at `c1 = 2^20` (1 MiB), `c2 = 2^30` (1 GiB). -/
theorem geo_consistency_bounded_witness :
    geoProduct (2 ^ 20 / 512) ≤ 2 ^ 20 / 512 ∧
    2 ^ 20 / 512 - geoProduct (2 ^ 20 / 512) < 2048 ∧
    geoProduct (2 ^ 20 / 512) ≤ geoProduct (2 ^ 30 / 512) :=
  have h := geo_consistency_bounded (2 ^ 20) (2 ^ 30) (by decide) (by decide) (by decide)
  ⟨h.1, h.2.1, h.2.2 (by decide)⟩

/- ------------------------------------------------------------------ -/
/- C10: getgeo always succeeds; field widths                           -/
/- ------------------------------------------------------------------ -/

/-- Claim C10: the geometry query always returns status 0; `heads` and
`sectors` pass through 8-bit fields (`(u8)(1<<6) = 64`, `(u8)(1<<5) = 32`)
and `cylinders` through the 16-bit field, so for a device configured with
`sector_size`/`num_sectors` the reported value is
`((capacity_bytes / 512) >> 11) mod 2^16`; at `2^27` 512-byte sectors
(64 GiB) it wraps to 0. -/
theorem getgeo_field_widths :
    (∀ (sector_size : Int) (num_sectors : Nat),
      (xiprd_getgeo (kernel_sectors sector_size num_sectors)).2 = 0 ∧
      (xiprd_getgeo (kernel_sectors sector_size num_sectors)).1.heads = 64 ∧
      (xiprd_getgeo (kernel_sectors sector_size num_sectors)).1.sectors = 32 ∧
      (xiprd_getgeo (kernel_sectors sector_size num_sectors)).1.cylinders =
        ((dev_size sector_size num_sectors / 512) >>> 11) % 65536) ∧
    (xiprd_getgeo (2 ^ 27)).1.cylinders = 0 ∧ (2 ^ 27) >>> 11 = 65536 := by
  refine ⟨?_, by decide, by decide⟩
  intro ss ns
  refine ⟨rfl, rfl, rfl, ?_⟩
  simp [xiprd_getgeo, kernel_sectors, KERNEL_SHIFT, Nat.shiftRight_eq_div_pow]

/- ------------------------------------------------------------------ -/
/- Lifecycle: xiprd_init (lines 109-181)                               -/
/- ------------------------------------------------------------------ -/

/-- A resource `xiprd_init` can acquire from or release to its host. -/
inductive Resource where
  | ramdisk : Resource
  | blkdevMajor : Nat → Resource
  | disk : Resource
  | queue : Resource
  | added : Resource
deriving DecidableEq

/-- One external call of `xiprd_init`: an allocation attempt, a resource
acquisition, or a release call issued to the host. -/
inductive Ev where
  | vmallocAttempt : Nat → Ev
  | acq : Resource → Ev
  | rel : Resource → Ev
deriving DecidableEq

/-- Outcomes of the external host calls made during init: whether
`vmalloc`, `alloc_disk` and `blk_alloc_queue` succeed, and the value
returned by `register_blkdev(0, name)` (the dynamically assigned major when
`≥ 0`, an error when `< 0`). -/
structure InitEnv where
  vmallocOk : Bool
  regResult : Int
  allocDiskOk : Bool
  allocQueueOk : Bool

/-- Result of `xiprd_init`: the returned code and the ordered trace of
allocation attempts, acquisitions, and release calls. -/
structure InitResult where
  rc : Int
  events : List Ev
deriving DecidableEq

/-- `xiprd_init` (lines 109-181), with the `err_out` cleanup transcribed as
in the source. After `memset(dev, 0, ...)` the field `dev->major` is 0 and
is never assigned again — line 129 stores the register_blkdev result into
the local `rc`, not into `dev->major`. `err_out` (lines 169-178) frees the
ramdisk if non-NULL, and only if `dev->disk` is non-NULL runs
`del_gendisk`, `put_disk`, `blk_cleanup_queue(dev->disk->queue)` and
`unregister_blkdev(dev->major, dev->name)`; each of those four calls is
recorded as the release it requests, whether or not the matching resource
was ever acquired. -/
def xiprd_init (sector_size : Int) (num_sectors : Nat) (env : InitEnv) : InitResult :=
  let devMajor : Nat := 0
  let size := dev_size sector_size num_sectors
  let ev0 := [Ev.vmallocAttempt size]
  if env.vmallocOk = false then
    { rc := -12, events := ev0 }
  else
    let ev1 := ev0 ++ [Ev.acq Resource.ramdisk]
    if env.regResult < 0 then
      { rc := env.regResult, events := ev1 ++ [Ev.rel Resource.ramdisk] }
    else
      let ev2 := ev1 ++ [Ev.acq (Resource.blkdevMajor env.regResult.toNat)]
      if env.allocDiskOk = false then
        { rc := -12, events := ev2 ++ [Ev.rel Resource.ramdisk] }
      else
        let ev3 := ev2 ++ [Ev.acq Resource.disk]
        if env.allocQueueOk = false then
          { rc := -12,
            events := ev3 ++ [Ev.rel Resource.ramdisk, Ev.rel Resource.added,
              Ev.rel Resource.disk, Ev.rel Resource.queue,
              Ev.rel (Resource.blkdevMajor devMajor)] }
        else
          { rc := 0, events := ev3 ++ [Ev.acq Resource.queue, Ev.acq Resource.added] }

/- ------------------------------------------------------------------ -/
/- C3: rollback leaks the blkdev registration                          -/
/- ------------------------------------------------------------------ -/

/-- Failure plan for init: `vmalloc` succeeds, `register_blkdev` succeeds
with major 7, `alloc_disk` fails. -/
def envDiskFail : InitEnv :=
  { vmallocOk := true, regResult := 7, allocDiskOk := false, allocQueueOk := true }

/-- Failure plan for init: everything succeeds (major 7) until
`blk_alloc_queue` fails. -/
def envQueueFail : InitEnv :=
  { vmallocOk := true, regResult := 7, allocDiskOk := true, allocQueueOk := false }

/-- Claim C3 is violated by the code: with `vmalloc` succeeding,
`register_blkdev` succeeding with major 7, and `alloc_disk` failing, init
returns an error but the cleanup frees only the ramdisk — the driver
registration acquired as major 7 is never released (`unregister_blkdev`
sits inside `if (dev->disk)`, and `dev->disk` is NULL), so an acquired
resource is left outstanding. Moreover the queue-failure path shows the
converse defect: it issues releases for resources never acquired
(`del_gendisk` without `add_disk`, `blk_cleanup_queue` on the NULL queue)
and unregisters major 0 instead of the assigned major 7. -/
theorem init_rollback_leak :
    ((xiprd_init 512 2048 envDiskFail).rc ≠ 0 ∧
      Ev.acq (Resource.blkdevMajor 7) ∈ (xiprd_init 512 2048 envDiskFail).events ∧
      Ev.rel (Resource.blkdevMajor 7) ∉ (xiprd_init 512 2048 envDiskFail).events) ∧
    (Ev.rel Resource.added ∈ (xiprd_init 512 2048 envQueueFail).events ∧
      Ev.acq Resource.added ∉ (xiprd_init 512 2048 envQueueFail).events ∧
      Ev.rel (Resource.blkdevMajor 7) ∉ (xiprd_init 512 2048 envQueueFail).events) := by
  decide

/- ------------------------------------------------------------------ -/
/- C6: there is no configuration validation                            -/
/- ------------------------------------------------------------------ -/

/-- Environment in which `vmalloc` fails and every later host call would
succeed. -/
def envVmallocFail : InitEnv :=
  { vmallocOk := false, regResult := 7, allocDiskOk := true, allocQueueOk := true }

/-- Counterexample to claim C6. With the non-positive `sector_size = 0`,
the claim says init fails with a `ConfigurationError` before any
backing-store allocation is attempted; the code instead goes straight to
`vmalloc(num_sectors * 0) = vmalloc(0)` — the allocation IS attempted —
and when the allocation fails the returned code is the allocator's
`-ENOMEM` (-12), not a configuration error (`-EINVAL`, -22). -/
theorem config_validation_counterexample :
    Ev.vmallocAttempt 0 ∈ (xiprd_init 0 2048 envVmallocFail).events ∧
    (xiprd_init 0 2048 envVmallocFail).rc = -12 ∧
    (xiprd_init 0 2048 envVmallocFail).rc ≠ -22 := by
  decide

/-- Claim C6 as amended: `xiprd_init` performs no configuration validation
at all. For every `sector_size` and `num_sectors` — non-positive values
included — it computes `size = (u64)num_sectors * (u64)sector_size` and
immediately attempts the backing-store allocation with that size; its
return code is always 0, the allocator's/registration's -12, or the
`register_blkdev` error, never a distinct configuration error. -/
theorem no_config_validation (sector_size : Int) (num_sectors : Nat) (env : InitEnv) :
    Ev.vmallocAttempt (dev_size sector_size num_sectors) ∈
      (xiprd_init sector_size num_sectors env).events ∧
    ((xiprd_init sector_size num_sectors env).rc = 0 ∨
      (xiprd_init sector_size num_sectors env).rc = -12 ∨
      (xiprd_init sector_size num_sectors env).rc = env.regResult) := by
  unfold xiprd_init
  split
  · simp
  · split
    · simp
    · split
      · simp
      · split <;> simp
